import Mathlib

/-!
Verification of the metric-extraction engine of PtrackeR (src/perp.py).

The Python source is shallowly embedded:

* A cell of a pandas DataFrame is a `Cell` (missing value `na`, string, or
  number); a DataFrame is a row count plus named columns; the Python heap of
  DataFrame objects is a `Store` (list of frames), references are indices.
* `retry_with_backoff` is embedded as a function from the underlying
  extractor's per-attempt outcomes (`Nat → Except String α`, attempt index to
  raise-or-return) to a result together with the trace of calls and sleeps it
  performs.  Python exceptions are `Except.error`.
* `scrape_playcount` is embedded as a function of the page outcome seen by
  the supplied driver for the one URL (`PageOutcome`): either navigation or
  element location raises, or the located element has some text.
* `process_spotify_data` / `process_youtube_data` iterate the rows, reading
  the URL cell of each row (a read that raises a KeyError when the column
  reference is invalid), and return the new store, the returned frame (or the
  propagated exception), the number of extractor calls, and for the Spotify
  path the number of browser sessions opened and closed.
-/

/-- A pandas cell: missing (NaN/None), a string, or a number. -/
inductive Cell
  | na
  | str (s : String)
  | num (q : ℚ)
deriving DecidableEq, Repr

/-- A DataFrame: a row count and named columns (pandas keeps column names
unique; `cols` is an association list in column order). -/
structure DataFrame where
  nrows : Nat
  cols : List (String × List Cell)
deriving DecidableEq, Repr

instance : Inhabited DataFrame := ⟨⟨0, []⟩⟩

/-- Column lookup by name, as in `df[name]`: the first column of that name. -/
def DataFrame.getCol (df : DataFrame) (name : String) : Option (List Cell) :=
  (df.cols.find? (fun p => p.1 == name)).map Prod.snd

/-- `df[name] = col`: replace the column when the name exists, else append a
new column at the end (pandas assignment semantics). -/
def DataFrame.setCol (df : DataFrame) (name : String) (col : List Cell) : DataFrame :=
  if df.cols.any (fun p => p.1 == name) then
    { df with cols := df.cols.map (fun p => if p.1 == name then (name, col) else p) }
  else
    { df with cols := df.cols ++ [(name, col)] }

/-- `row[name]` for row `i`: raises a KeyError when the column is missing. -/
def DataFrame.cell (df : DataFrame) (name : String) (i : Nat) : Except String Cell :=
  match df.getCol name with
  | none => Except.error "KeyError"
  | some col => Except.ok (col.getD i Cell.na)

/-- The sequence of per-row URL-cell reads made by a batch loop:
row 0 up to row `nrows - 1`. -/
def DataFrame.rowReads (df : DataFrame) (name : String) : List (Except String Cell) :=
  (List.range df.nrows).map (fun i => df.cell name i)

/-- The Python heap of DataFrame objects; a reference is an index. -/
abbrev Store := List DataFrame

/-- One observable event of the retry controller: an extractor call
(with its attempt index) or a sleep of a given duration in seconds. -/
inductive REvent
  | call (i : Nat)
  | sleep (w : ℚ)
deriving DecidableEq, Repr

/-- Result of running `retry_with_backoff`: the returned value or the
propagated exception, plus the ordered trace of calls and sleeps. -/
structure RetryRun (α : Type) where
  result : Except String α
  trace : List REvent
deriving Repr

/-- Number of extractor calls in a retry run. -/
def RetryRun.calls {α : Type} (r : RetryRun α) : Nat :=
  r.trace.countP (fun e => match e with | REvent.call _ => true | _ => false)

/-- The sleep durations of a retry run, in order. -/
def RetryRun.sleeps {α : Type} (r : RetryRun α) : List ℚ :=
  r.trace.filterMap (fun e => match e with | REvent.sleep w => some w | _ => none)

/-- The `while retries < max_retries` loop of `retry_with_backoff`
(src/perp.py lines 57-66), in fuel form: `remaining = max_retries - retries`
is the number of loop iterations still allowed, so `retries < max_retries`
iff `remaining > 0`.  Call `func`; on success return its value; on an
exception sleep `backoff_factor ** retries` and loop with `retries + 1`;
when `retries` reaches `max_retries` (i.e. `remaining = 0`), raise. -/
def retryGo {α : Type} (f : Nat → Except String α) (backoff_factor : Nat) :
    Nat → Nat → RetryRun α
  | 0, _retries =>
    { result := Except.error "Max retries reached. Unable to complete request.",
      trace := [] }
  | remaining + 1, retries =>
    match f retries with
    | Except.ok a => { result := Except.ok a, trace := [REvent.call retries] }
    | Except.error _ =>
      let rest := retryGo f backoff_factor remaining (retries + 1)
      { result := rest.result,
        trace := REvent.call retries ::
          REvent.sleep ((backoff_factor : ℚ) ^ retries) :: rest.trace }

/-- `retry_with_backoff(func, max_retries=3, backoff_factor=2)`
(src/perp.py lines 55-67), applied to the outcomes `f` of the wrapped
function: attempt `i` of `func` raises or returns `f i`. -/
def retry_with_backoff {α : Type} (f : Nat → Except String α)
    (max_retries : Nat := 3) (backoff_factor : Nat := 2) : RetryRun α :=
  retryGo f backoff_factor max_retries 0

/-- What the driver exposes to one `scrape_playcount` call: either
`driver.get`/`WebDriverWait` raises, or the play-count element is located
and has the given text. -/
inductive PageOutcome
  | raiseExc (e : String)
  | text (t : List Char)
deriving DecidableEq, Repr

/-- `''.join(filter(str.isdigit, play_count_element.text))`
(src/perp.py line 87). -/
def count_text (t : List Char) : List Char :=
  t.filter Char.isDigit

/-- Python `int` on a string of decimal digits. -/
def digitsToNat (s : List Char) : Nat :=
  s.foldl (fun n c => n * 10 + (c.toNat - 48)) 0

/-- The `try` body of `scrape_playcount` (src/perp.py lines 79-88):
navigate, wait for the element, then parse the digits of its text;
`int(count_text) if count_text else 0`. -/
def scrape_playcount_body (o : PageOutcome) : Except String Nat :=
  match o with
  | PageOutcome.raiseExc e => Except.error e
  | PageOutcome.text t =>
    Except.ok (if count_text t ≠ [] then digitsToNat (count_text t) else 0)

/-- `scrape_playcount` (src/perp.py lines 77-91): the `try` body, with
`except Exception: return 0`. -/
def scrape_playcount (o : PageOutcome) : Nat :=
  match scrape_playcount_body o with
  | Except.ok n => n
  | Except.error _ => 0

/-- Python `int()` applied to a number: truncation toward zero. -/
def pyInt (q : ℚ) : ℤ :=
  if 0 ≤ q then ⌊q⌋ else ⌈q⌉

/-- Round-half-to-even to an integer, the rounding Python `round` uses. -/
def roundHalfEven (q : ℚ) : ℤ :=
  if q - ⌊q⌋ < 1 / 2 then ⌊q⌋
  else if 1 / 2 < q - ⌊q⌋ then ⌊q⌋ + 1
  else if ⌊q⌋ % 2 = 0 then ⌊q⌋ else ⌊q⌋ + 1

/-- Python `round(x, 2)`. -/
def pyRound2 (q : ℚ) : ℚ :=
  (roundHalfEven (q * 100) : ℚ) / 100

/-- `format_views_to_millions` (src/perp.py lines 156-164): `None` when the
input is NA; otherwise divide by 1,000,000, `round(millions, 2)` when the
quotient is below 1, and `int(millions)` otherwise. -/
def format_views_to_millions : Option ℚ → Option ℚ
  | none => none
  | some views =>
    let millions := views / 1000000
    if millions < 1 then some (pyRound2 millions)
    else some ((pyInt millions : ℚ))

/-- Environment of one `process_spotify_data` run: whether `setup_selenium`
returns a driver or raises, and the page outcome the driver produces on the
k-th `scrape_playcount` call of the batch. -/
structure SpotifyEnv where
  setup : Except String Unit
  page : Nat → PageOutcome

/-- Result of a `process_spotify_data` run: the heap after the call, the
reference of the returned frame, the number of `scrape_playcount` calls
made, and the numbers of browser sessions opened and closed. -/
structure SpotifyResult where
  store : Store
  ref : Nat
  calls : Nat
  opened : Nat
  closed : Nat
deriving Repr

/-- The row loop of `process_spotify_data` (src/perp.py lines 125-141) over
the remaining per-row URL-cell reads, with `k` scrape calls made so far:
a KeyError read propagates; an NA cell appends `0` with no scrape call;
any other cell appends `scrape_playcount`'s value.  Returns the outcome
(the `play_counts` list, or the exception) and the total scrape calls. -/
def spotifyLoop (page : Nat → PageOutcome) :
    List (Except String Cell) → Nat → Except String (List Cell) × Nat
  | [], k => (Except.ok [], k)
  | Except.error e :: _, k => (Except.error e, k)
  | Except.ok c :: rest, k =>
    if c = Cell.na then
      let r := spotifyLoop page rest k
      (r.1.map (fun l => Cell.num 0 :: l), r.2)
    else
      let v := scrape_playcount (page k)
      let r := spotifyLoop page rest (k + 1)
      (r.1.map (fun l => Cell.num (v : ℚ) :: l), r.2)

/-- `process_spotify_data(df, spotify_url_column)` (src/perp.py lines
113-154): copy the frame, set up the driver inside `try` (a setup failure is
caught by `except` and the copy is returned, with no driver to quit in
`finally`), run the row loop, assign the `'Play Count'` column on success,
return the copy also when the loop raised (the `except` branch), and quit
the one driver in `finally`. -/
def process_spotify_data (σ : Store) (dfRef : Nat) (spotify_url_column : String)
    (env : SpotifyEnv) : SpotifyResult :=
  let df := σ.getD dfRef default
  match env.setup with
  | Except.error _ =>
    { store := σ ++ [df], ref := σ.length, calls := 0, opened := 0, closed := 0 }
  | Except.ok _ =>
    let r := spotifyLoop env.page (df.rowReads spotify_url_column) 0
    let final := match r.1 with
      | Except.ok play_counts => df.setCol "Play Count" play_counts
      | Except.error _ => df
    { store := σ ++ [final], ref := σ.length, calls := r.2, opened := 1, closed := 1 }

/-- Environment of one `process_youtube_data` run: `raw k i` is the outcome
of attempt `i` of the undecorated `get_youtube_views` body during the k-th
decorated call of the batch (raise, or the fetched view count). -/
structure YoutubeEnv where
  raw : Nat → Nat → Except String Nat

/-- Result of a `process_youtube_data` run: the heap after the call, the
returned frame reference or the propagated exception, and the number of
(decorated) `get_youtube_views` calls made. -/
structure YoutubeResult where
  store : Store
  ret : Except String Nat
  calls : Nat
deriving Repr

/-- The cell appended for one non-NA YouTube row (src/perp.py lines
186-192): run the retry-decorated `get_youtube_views`, format its value to
millions on success, and append `None` when the decorated call raised. -/
def youtubeCell (raw : Nat → Nat → Except String Nat) (k : Nat) : Cell :=
  match (retry_with_backoff (raw k)).result with
  | Except.ok view_count =>
    match format_views_to_millions (some (view_count : ℚ)) with
    | some q => Cell.num q
    | none => Cell.na
  | Except.error _ => Cell.na

/-- The row loop of `process_youtube_data` (src/perp.py lines 176-194) over
the remaining per-row URL-cell reads, with `k` decorated calls made so far:
a KeyError read propagates; an NA cell appends `None` with no call; any
other cell appends `youtubeCell`. -/
def youtubeLoop (raw : Nat → Nat → Except String Nat) :
    List (Except String Cell) → Nat → Except String (List Cell) × Nat
  | [], k => (Except.ok [], k)
  | Except.error e :: _, k => (Except.error e, k)
  | Except.ok c :: rest, k =>
    if c = Cell.na then
      let r := youtubeLoop raw rest k
      (r.1.map (fun l => Cell.na :: l), r.2)
    else
      let v := youtubeCell raw k
      let r := youtubeLoop raw rest (k + 1)
      (r.1.map (fun l => v :: l), r.2)

/-- `process_youtube_data(df, youtube_url_column)` (src/perp.py lines
166-201): copy the frame, run the row loop inside `try` with only a
`finally` (no `except`), assign the `'Views (Millions)'` column on success,
and propagate the exception when the loop raised. -/
def process_youtube_data (σ : Store) (dfRef : Nat) (youtube_url_column : String)
    (env : YoutubeEnv) : YoutubeResult :=
  let df := σ.getD dfRef default
  let r := youtubeLoop env.raw (df.rowReads youtube_url_column) 0
  match r.1 with
  | Except.ok views =>
    { store := σ ++ [df.setCol "Views (Millions)" views],
      ret := Except.ok σ.length, calls := r.2 }
  | Except.error e =>
    { store := σ ++ [df], ret := Except.error e, calls := r.2 }

/-- Characterization of the `play_counts` list built by the Spotify row
loop from the URL column, with `k` scrape calls already made: an NA cell
contributes `0`, any other cell the value of the next scrape call. -/
def spotifyCells (page : Nat → PageOutcome) : Nat → List Cell → List Cell
  | _, [] => []
  | k, c :: rest =>
    if c = Cell.na then Cell.num 0 :: spotifyCells page k rest
    else Cell.num (scrape_playcount (page k) : ℚ) :: spotifyCells page (k + 1) rest

/-- Characterization of the `views` list built by the YouTube row loop:
an NA cell contributes `None`, any other cell the formatted value of the
next decorated `get_youtube_views` call. -/
def youtubeCells (raw : Nat → Nat → Except String Nat) : Nat → List Cell → List Cell
  | _, [] => []
  | k, c :: rest =>
    if c = Cell.na then Cell.na :: youtubeCells raw k rest
    else youtubeCell raw k :: youtubeCells raw (k + 1) rest

/-- Number of non-NA cells of a column: the rows for which the batch loop
makes an extractor call. -/
def countScraped : List Cell → Nat
  | [] => 0
  | c :: rest => (if c = Cell.na then 0 else 1) + countScraped rest

lemma spotifyCells_length (page : Nat → PageOutcome) :
    ∀ (k : Nat) (urls : List Cell), (spotifyCells page k urls).length = urls.length := by
  intro k urls
  induction urls generalizing k with
  | nil => rfl
  | cons c rest ih =>
    by_cases h : c = Cell.na <;> simp [spotifyCells, h, ih]

lemma youtubeCells_length (raw : Nat → Nat → Except String Nat) :
    ∀ (k : Nat) (urls : List Cell), (youtubeCells raw k urls).length = urls.length := by
  intro k urls
  induction urls generalizing k with
  | nil => rfl
  | cons c rest ih =>
    by_cases h : c = Cell.na <;> simp [youtubeCells, h, ih]

lemma spotifyCells_na (page : Nat → PageOutcome) :
    ∀ (k : Nat) (urls : List Cell) (i : Nat), urls[i]? = some Cell.na →
      (spotifyCells page k urls)[i]? = some (Cell.num 0) := by
  intro k urls
  induction urls generalizing k with
  | nil => intro i h; simp at h
  | cons c rest ih =>
    intro i h
    cases i with
    | zero =>
      simp at h
      simp [spotifyCells, h]
    | succ j =>
      simp only [List.getElem?_cons_succ] at h
      by_cases hc : c = Cell.na
      · simpa [spotifyCells, hc] using ih k j h
      · simpa [spotifyCells, hc] using ih (k + 1) j h

lemma youtubeCells_na (raw : Nat → Nat → Except String Nat) :
    ∀ (k : Nat) (urls : List Cell) (i : Nat), urls[i]? = some Cell.na →
      (youtubeCells raw k urls)[i]? = some Cell.na := by
  intro k urls
  induction urls generalizing k with
  | nil => intro i h; simp at h
  | cons c rest ih =>
    intro i h
    cases i with
    | zero =>
      simp at h
      simp [youtubeCells, h]
    | succ j =>
      simp only [List.getElem?_cons_succ] at h
      by_cases hc : c = Cell.na
      · simpa [youtubeCells, hc] using ih k j h
      · simpa [youtubeCells, hc] using ih (k + 1) j h

lemma spotifyLoop_map_ok (page : Nat → PageOutcome) :
    ∀ (urls : List Cell) (k : Nat),
      spotifyLoop page (urls.map Except.ok) k =
        (Except.ok (spotifyCells page k urls), k + countScraped urls) := by
  intro urls
  induction urls with
  | nil => intro k; simp [spotifyLoop, spotifyCells, countScraped]
  | cons c rest ih =>
    intro k
    by_cases h : c = Cell.na
    · simp [spotifyLoop, spotifyCells, countScraped, h, ih, Except.map]
    · simp [spotifyLoop, spotifyCells, countScraped, h, ih, Except.map]
      omega

lemma youtubeLoop_map_ok (raw : Nat → Nat → Except String Nat) :
    ∀ (urls : List Cell) (k : Nat),
      youtubeLoop raw (urls.map Except.ok) k =
        (Except.ok (youtubeCells raw k urls), k + countScraped urls) := by
  intro urls
  induction urls with
  | nil => intro k; simp [youtubeLoop, youtubeCells, countScraped]
  | cons c rest ih =>
    intro k
    by_cases h : c = Cell.na
    · simp [youtubeLoop, youtubeCells, countScraped, h, ih, Except.map]
    · simp [youtubeLoop, youtubeCells, countScraped, h, ih, Except.map]
      omega

lemma rowReads_eq_map_ok (df : DataFrame) (name : String) (urls : List Cell)
    (h1 : df.getCol name = some urls) (h2 : urls.length = df.nrows) :
    df.rowReads name = urls.map Except.ok := by
  apply List.ext_getElem
  · simp [DataFrame.rowReads, h2]
  · intro n hn1 hn2
    have hn : n < urls.length := by
      simpa [DataFrame.rowReads, h2] using hn1
    simp only [DataFrame.rowReads, List.getElem_map, List.getElem_range, DataFrame.cell, h1]
    rw [List.getD_eq_getElem urls Cell.na hn]

lemma find?_replaceCol (name : String) (col : List Cell) :
    ∀ l : List (String × List Cell), l.any (fun p => p.1 == name) = true →
      (l.map (fun p => if p.1 == name then (name, col) else p)).find?
        (fun p => p.1 == name) = some (name, col) := by
  intro l
  induction l with
  | nil => intro h; simp at h
  | cons p rest ih =>
    intro h
    by_cases hp : p.1 == name
    · simp only [List.map_cons, if_pos hp]
      exact List.find?_cons_of_pos _ (by simp)
    · have hrest : rest.any (fun q => q.1 == name) = true := by
        rcases List.any_eq_true.mp h with ⟨x, hx, hxp⟩
        rcases List.mem_cons.mp hx with rfl | hx2
        · exact absurd hxp hp
        · exact List.any_eq_true.mpr ⟨x, hx2, hxp⟩
      simp only [List.map_cons, if_neg hp]
      exact (List.find?_cons_of_neg
        (p := fun q : String × List Cell => q.1 == name) _ hp).trans (ih hrest)

lemma getCol_setCol (df : DataFrame) (name : String) (col : List Cell) :
    (df.setCol name col).getCol name = some col := by
  unfold DataFrame.setCol DataFrame.getCol
  by_cases h : df.cols.any (fun p => p.1 == name)
  · simp only [if_pos h]
    rw [find?_replaceCol name col df.cols h]
    rfl
  · simp only [if_neg h]
    have hnone : df.cols.find? (fun p => p.1 == name) = none := by
      rw [List.find?_eq_none]
      intro x hx
      exact fun hc => (Bool.eq_false_iff.mp (Bool.eq_false_iff.mpr
        (fun hh => h (List.any_eq_true.mpr ⟨x, hx, hh⟩)))) hc
    rw [List.find?_append, hnone]
    simp

/-- Full characterization of a `process_spotify_data` run in which the URL
column reference is valid and `setup_selenium` succeeds. -/
lemma spotify_run_ok (σ : Store) (dfRef : Nat) (scol : String) (env : SpotifyEnv)
    (urls : List Cell)
    (h1 : (σ.getD dfRef default).getCol scol = some urls)
    (h2 : urls.length = (σ.getD dfRef default).nrows)
    (h3 : env.setup = Except.ok ()) :
    process_spotify_data σ dfRef scol env =
      { store := σ ++ [(σ.getD dfRef default).setCol "Play Count"
          (spotifyCells env.page 0 urls)],
        ref := σ.length, calls := countScraped urls, opened := 1, closed := 1 } := by
  unfold process_spotify_data
  rw [h3]
  dsimp only
  rw [rowReads_eq_map_ok _ _ _ h1 h2, spotifyLoop_map_ok]
  simp

/-- Full characterization of a `process_youtube_data` run in which the URL
column reference is valid. -/
lemma youtube_run_ok (σ : Store) (dfRef : Nat) (ycol : String) (env : YoutubeEnv)
    (urls : List Cell)
    (h1 : (σ.getD dfRef default).getCol ycol = some urls)
    (h2 : urls.length = (σ.getD dfRef default).nrows) :
    process_youtube_data σ dfRef ycol env =
      { store := σ ++ [(σ.getD dfRef default).setCol "Views (Millions)"
          (youtubeCells env.raw 0 urls)],
        ret := Except.ok σ.length, calls := countScraped urls } := by
  unfold process_youtube_data
  dsimp only
  rw [rowReads_eq_map_ok _ _ _ h1 h2, youtubeLoop_map_ok]
  simp

/-- When every attempt raises, the retry loop raises the max-retries
exception, and its trace is one call followed by one backoff sleep per
allowed iteration, with exponentially growing sleeps. -/
lemma retryGo_allFail {α : Type} (f : Nat → Except String α) (bf : Nat)
    (hf : ∀ i, (f i).isOk = false) :
    ∀ (n r : Nat), retryGo f bf n r =
      { result := Except.error "Max retries reached. Unable to complete request.",
        trace := (List.range' r n).flatMap
          (fun k => [REvent.call k, REvent.sleep ((bf : ℚ) ^ k)]) } := by
  intro n
  induction n with
  | zero => intro r; simp [retryGo]
  | succ n ih =>
    intro r
    cases hfr : f r with
    | ok a => exact absurd (hf r) (by simp [hfr, Except.isOk, Except.toBool])
    | error e =>
      simp only [retryGo, hfr, ih (r + 1), List.range'_succ, List.flatMap_cons]
      rfl

lemma countCalls_flatMapTrace (bf : Nat) :
    ∀ l : List Nat,
      (l.flatMap (fun k => [REvent.call k, REvent.sleep ((bf : ℚ) ^ k)])).countP
        (fun e => match e with | REvent.call _ => true | _ => false) = l.length := by
  intro l
  induction l with
  | nil => rfl
  | cons a l ih => simp [List.flatMap_cons, List.countP_cons, List.countP_append, ih]

lemma sleeps_flatMapTrace (bf : Nat) :
    ∀ l : List Nat,
      (l.flatMap (fun k => [REvent.call k, REvent.sleep ((bf : ℚ) ^ k)])).filterMap
        (fun e => match e with | REvent.sleep w => some w | _ => none) =
        l.map (fun k => (bf : ℚ) ^ k) := by
  intro l
  induction l with
  | nil => rfl
  | cons a l ih => simp [List.flatMap_cons, List.filterMap_cons, List.filterMap_append, ih]

lemma getD_append_self (σ : Store) (x : DataFrame) :
    (σ ++ [x]).getD σ.length default = x := by
  rw [List.getD_eq_getElem?_getD, List.getElem?_concat_length]
  rfl

/-- An extractor whose every attempt raises. -/
def alwaysRaise : Nat → Except String Nat := fun _ => Except.error "boom"

/-- A one-row frame whose URL cell is missing (NaN). -/
def naRowStore : Store := [⟨1, [("URL", [Cell.na])]⟩]

/-- A one-row frame with no column named "URL". -/
def noUrlColStore : Store := [⟨1, [("A", [Cell.na])]⟩]

/-- A two-row frame with two distinct URLs. -/
def twoUrlStore : Store := [⟨2, [("URL", [Cell.str "a", Cell.str "b"])]⟩]

/-- A Spotify environment whose driver setup succeeds and whose pages all
time out. -/
def spotifyEnvOk : SpotifyEnv := ⟨Except.ok (), fun _ => PageOutcome.raiseExc "timeout"⟩

/-- A YouTube environment whose every fetch returns a zero view count. -/
def ytEnvZero : YoutubeEnv := ⟨fun _ _ => Except.ok 0⟩

/-- C1, counterexample: with an extractor that raises on every call,
`retry_with_backoff` does NOT return a Failed result after `max_retries`
calls — it raises its own `Exception("Max retries reached. ...")` to the
caller (the result is a propagated exception, not a normal return), so the
claim that it never propagates any exception is false. -/
theorem C1_counterexample :
    (retry_with_backoff alwaysRaise).result =
      Except.error "Max retries reached. Unable to complete request." ∧
    (retry_with_backoff alwaysRaise).result.isOk = false ∧
    (retry_with_backoff alwaysRaise).calls = 3 :=
  ⟨rfl, rfl, rfl⟩

/-- C1, amended: for every extractor whose every attempt raises,
`retry_with_backoff` makes exactly `max_retries` calls and then RAISES an
exception ("Max retries reached. Unable to complete request.") to its
caller, rather than returning a Failed result. -/
theorem C1_amended {α : Type} (f : Nat → Except String α) (m bf : Nat)
    (hf : ∀ i, (f i).isOk = false) :
    (retry_with_backoff f m bf).result =
      Except.error "Max retries reached. Unable to complete request." ∧
    (retry_with_backoff f m bf).calls = m := by
  unfold retry_with_backoff
  rw [retryGo_allFail f bf hf m 0]
  refine ⟨rfl, ?_⟩
  simp [RetryRun.calls, countCalls_flatMapTrace, List.length_range']

/-- C1, witness: the amended theorem at the always-raising extractor with
the source's default budget of 3. -/
theorem C1_witness :
    (∀ i, (alwaysRaise i).isOk = false) ∧
    ((retry_with_backoff alwaysRaise 3 2).result =
      Except.error "Max retries reached. Unable to complete request." ∧
    (retry_with_backoff alwaysRaise 3 2).calls = 3) :=
  ⟨fun _ => rfl, C1_amended alwaysRaise 3 2 (fun _ => rfl)⟩

/-- C2, counterexample: on a 1-row frame whose URL column reference is
invalid, the row read raises, the `except` branch of
`process_spotify_data` returns the copied frame, and the returned table has
NO result column at all (rather than a result column with exactly 1
entry) — so the claim's "even when an exception occurs during the batch"
part is false. -/
theorem C2_counterexample :
    ((process_spotify_data noUrlColStore 0 "URL" spotifyEnvOk).store.getD
      (process_spotify_data noUrlColStore 0 "URL" spotifyEnvOk).ref default).getCol
      "Play Count" = none ∧
    (noUrlColStore.getD 0 default).nrows = 1 := by
  constructor <;> decide

/-- C2, amended: when no exception occurs during the batch — the URL
column reference is valid (and, for the Spotify path, driver setup
succeeds) — each processor returns a table whose new result column has
exactly `nrows` entries, produced row by row in input order (`spotifyCells`
/ `youtubeCells` map the URL column 1:1, index-aligned).  When an exception
does occur, `process_spotify_data` returns the copy without the result
column and `process_youtube_data` propagates the exception. -/
theorem C2_amended (σ₁ σ₂ : Store) (r₁ r₂ : Nat) (scol ycol : String)
    (senv : SpotifyEnv) (yenv : YoutubeEnv) (surls yurls : List Cell)
    (hs1 : (σ₁.getD r₁ default).getCol scol = some surls)
    (hs2 : surls.length = (σ₁.getD r₁ default).nrows)
    (hs3 : senv.setup = Except.ok ())
    (hy1 : (σ₂.getD r₂ default).getCol ycol = some yurls)
    (hy2 : yurls.length = (σ₂.getD r₂ default).nrows) :
    (((process_spotify_data σ₁ r₁ scol senv).store.getD
        (process_spotify_data σ₁ r₁ scol senv).ref default).getCol "Play Count" =
      some (spotifyCells senv.page 0 surls) ∧
      (spotifyCells senv.page 0 surls).length = (σ₁.getD r₁ default).nrows) ∧
    (((process_youtube_data σ₂ r₂ ycol yenv).store.getD σ₂.length default).getCol
        "Views (Millions)" = some (youtubeCells yenv.raw 0 yurls) ∧
      (youtubeCells yenv.raw 0 yurls).length = (σ₂.getD r₂ default).nrows) := by
  rw [spotify_run_ok σ₁ r₁ scol senv surls hs1 hs2 hs3,
    youtube_run_ok σ₂ r₂ ycol yenv yurls hy1 hy2]
  exact ⟨⟨by rw [getD_append_self]; exact getCol_setCol _ _ _,
      by rw [spotifyCells_length]; exact hs2⟩,
    ⟨by rw [getD_append_self]; exact getCol_setCol _ _ _,
      by rw [youtubeCells_length]; exact hy2⟩⟩

/-- C2, witness: the amended theorem on two concrete 1-row frames. -/
theorem C2_witness :
    ((naRowStore.getD 0 default).getCol "URL" = some [Cell.na] ∧
      spotifyEnvOk.setup = Except.ok ()) ∧
    (((process_spotify_data naRowStore 0 "URL" spotifyEnvOk).store.getD
        (process_spotify_data naRowStore 0 "URL" spotifyEnvOk).ref default).getCol
      "Play Count" = some (spotifyCells spotifyEnvOk.page 0 [Cell.na]) ∧
      (spotifyCells spotifyEnvOk.page 0 [Cell.na]).length =
        (naRowStore.getD 0 default).nrows) ∧
    (((process_youtube_data naRowStore 0 "URL" ytEnvZero).store.getD
        naRowStore.length default).getCol "Views (Millions)" =
      some (youtubeCells ytEnvZero.raw 0 [Cell.na]) ∧
      (youtubeCells ytEnvZero.raw 0 [Cell.na]).length =
        (naRowStore.getD 0 default).nrows) :=
  ⟨⟨by decide, rfl⟩,
    C2_amended naRowStore naRowStore 0 0 "URL" "URL" spotifyEnvOk ytEnvZero
      [Cell.na] [Cell.na] (by decide) (by decide) rfl (by decide) (by decide)⟩

/-- C3, counterexample: on a 1-row frame whose URL cell is missing, the
Spotify path makes zero scrape calls but records the value 0 — a cell
identical to a legitimate play count of zero, NOT an absent value — so the
claim that both paths record an absent placeholder is false. -/
theorem C3_counterexample :
    ((process_spotify_data naRowStore 0 "URL" spotifyEnvOk).store.getD
      (process_spotify_data naRowStore 0 "URL" spotifyEnvOk).ref default).getCol
      "Play Count" = some [Cell.num 0] ∧
    Cell.num 0 ≠ Cell.na ∧
    (process_spotify_data naRowStore 0 "URL" spotifyEnvOk).calls = 0 := by
  refine ⟨by decide, by decide, by decide⟩

/-- C3, amended: a row with a missing URL cell triggers zero extractor
calls in both paths (the total call count equals the number of non-NA
cells), and the recorded placeholder is `None` (absent) in the YouTube
path but the literal value `0` — indistinguishable from a genuine zero
count — in the Spotify path. -/
theorem C3_amended (σ₁ σ₂ : Store) (r₁ r₂ : Nat) (scol ycol : String)
    (senv : SpotifyEnv) (yenv : YoutubeEnv) (surls yurls : List Cell)
    (hs1 : (σ₁.getD r₁ default).getCol scol = some surls)
    (hs2 : surls.length = (σ₁.getD r₁ default).nrows)
    (hs3 : senv.setup = Except.ok ())
    (hy1 : (σ₂.getD r₂ default).getCol ycol = some yurls)
    (hy2 : yurls.length = (σ₂.getD r₂ default).nrows) :
    ((process_spotify_data σ₁ r₁ scol senv).calls = countScraped surls ∧
      ∃ out, ((process_spotify_data σ₁ r₁ scol senv).store.getD
          (process_spotify_data σ₁ r₁ scol senv).ref default).getCol "Play Count" =
        some out ∧
        ∀ i : Nat, surls[i]? = some Cell.na → out[i]? = some (Cell.num 0)) ∧
    ((process_youtube_data σ₂ r₂ ycol yenv).calls = countScraped yurls ∧
      ∃ out, ((process_youtube_data σ₂ r₂ ycol yenv).store.getD σ₂.length
          default).getCol "Views (Millions)" = some out ∧
        ∀ i : Nat, yurls[i]? = some Cell.na → out[i]? = some Cell.na) := by
  rw [spotify_run_ok σ₁ r₁ scol senv surls hs1 hs2 hs3,
    youtube_run_ok σ₂ r₂ ycol yenv yurls hy1 hy2]
  refine ⟨⟨rfl, spotifyCells senv.page 0 surls, ?_, ?_⟩,
    ⟨rfl, youtubeCells yenv.raw 0 yurls, ?_, ?_⟩⟩
  · rw [getD_append_self]; exact getCol_setCol _ _ _
  · intro i hi; exact spotifyCells_na senv.page 0 surls i hi
  · rw [getD_append_self]; exact getCol_setCol _ _ _
  · intro i hi; exact youtubeCells_na yenv.raw 0 yurls i hi

/-- C3, witness: the amended theorem on a concrete 1-row frame with a
missing URL cell. -/
theorem C3_witness :
    ((naRowStore.getD 0 default).getCol "URL" = some [Cell.na] ∧
      [Cell.na].length = (naRowStore.getD 0 default).nrows ∧
      spotifyEnvOk.setup = Except.ok ()) ∧
    ((process_spotify_data naRowStore 0 "URL" spotifyEnvOk).calls =
        countScraped [Cell.na] ∧
      ∃ out, ((process_spotify_data naRowStore 0 "URL" spotifyEnvOk).store.getD
          (process_spotify_data naRowStore 0 "URL" spotifyEnvOk).ref default).getCol
        "Play Count" = some out ∧
        ∀ i : Nat, [Cell.na][i]? = some Cell.na → out[i]? = some (Cell.num 0)) :=
  ⟨⟨by decide, by decide, rfl⟩,
    (C3_amended naRowStore naRowStore 0 0 "URL" "URL" spotifyEnvOk ytEnvZero
      [Cell.na] [Cell.na] (by decide) (by decide) rfl (by decide) (by decide)).1⟩

/-- C4, counterexample: for element text "plays" (no digits),
`scrape_playcount` returns the value 0 by a normal return of its `try`
body — there is no NotFound signal — so the claim that a no-digits text
yields NotFound rather than zero is false. -/
theorem C4_counterexample :
    scrape_playcount (PageOutcome.text "plays".data) = 0 ∧
    scrape_playcount_body (PageOutcome.text "plays".data) = Except.ok 0 :=
  ⟨by decide, rfl⟩

/-- C4, amended: the play-count extractor parses by discarding all
non-digit characters and converting the remaining digits to an integer
("1,234,567 plays" yields 1234567); for element text containing no digits
the result is the value 0, not a NotFound signal. -/
theorem C4_amended :
    scrape_playcount (PageOutcome.text "1,234,567 plays".data) = 1234567 ∧
    (∀ t : List Char, count_text t = [] →
      scrape_playcount (PageOutcome.text t) = 0) ∧
    (∀ t : List Char,
      scrape_playcount (PageOutcome.text t) = digitsToNat (count_text t)) := by
  refine ⟨by decide, ?_, ?_⟩
  · intro t h
    simp [scrape_playcount, scrape_playcount_body, h]
  · intro t
    by_cases h : count_text t = []
    · simp [scrape_playcount, scrape_playcount_body, h, digitsToNat]
    · simp [scrape_playcount, scrape_playcount_body, h]

/-- C4, witness: the no-digits conjunct of the amended theorem at the
concrete text "plays". -/
theorem C4_witness :
    count_text "plays".data = [] ∧
    scrape_playcount (PageOutcome.text "plays".data) = 0 :=
  ⟨by decide, C4_amended.2.1 "plays".data (by decide)⟩

/-- C5, counterexample: a raw count of 2,500,000 maps to 2, not 3:
`int(millions)` truncates toward zero instead of rounding to the nearest
integer, so the claim's "2,500,000 maps to 3" is false. -/
theorem C5_counterexample :
    format_views_to_millions (some 2500000) = some 2 ∧ (2 : ℚ) ≠ 3 := by
  constructor
  · norm_num [format_views_to_millions, pyInt]
  · norm_num

/-- C5, amended: absent maps to absent; a raw count whose quotient by
1,000,000 is ≥ 1 maps to that quotient TRUNCATED toward zero (its floor,
for non-negative counts) — in particular 2,500,000 maps to 2, not 3;
a quotient < 1 maps to the quotient rounded to 2 decimal places
(500,000 maps to 0.5); and raw 0 maps to 0, not absent. -/
theorem C5_amended :
    format_views_to_millions none = none ∧
    format_views_to_millions (some 2500000) = some 2 ∧
    format_views_to_millions (some 500000) = some (1 / 2) ∧
    format_views_to_millions (some 0) = some 0 ∧
    (∀ q : ℚ, 1 ≤ q / 1000000 →
      format_views_to_millions (some q) = some ((⌊q / 1000000⌋ : ℤ) : ℚ)) := by
  refine ⟨rfl, by norm_num [format_views_to_millions, pyInt],
    by norm_num [format_views_to_millions, pyRound2, roundHalfEven],
    by norm_num [format_views_to_millions, pyRound2, roundHalfEven], ?_⟩
  intro q hq
  unfold format_views_to_millions
  dsimp only
  rw [if_neg (not_lt.mpr hq)]
  unfold pyInt
  rw [if_pos (le_trans zero_le_one hq)]

/-- C5, witness: the general truncation conjunct of the amended theorem at
the raw count 2,500,000. -/
theorem C5_witness :
    1 ≤ (2500000 : ℚ) / 1000000 ∧
    format_views_to_millions (some 2500000) =
      some ((⌊(2500000 : ℚ) / 1000000⌋ : ℤ) : ℚ) :=
  ⟨by norm_num, C5_amended.2.2.2.2 2500000 (by norm_num)⟩

/-- C6, counterexample: with an extractor that raises on every call and
the source's defaults, the inter-attempt delays are exactly
[1, 2, 4] = [2^0, 2^1, 2^2] — a deterministic pure-exponential schedule
with no randomness — so the claim that each delay is a randomized value
drawn uniformly from a bounded range is false. -/
theorem C6_counterexample :
    (retry_with_backoff alwaysRaise).sleeps = [1, 2, 4] ∧
    [(1 : ℚ), 2, 4] = (List.range 3).map (fun k => (2 : ℚ) ^ k) := by
  constructor
  · norm_num [retry_with_backoff, retryGo, RetryRun.sleeps, List.filterMap_cons,
      alwaysRaise]
  · norm_num [List.range_succ]

/-- C6, amended: for every extractor whose every attempt raises, the delay
slept after the k-th failed attempt is exactly `backoff_factor ^ k` — a
deterministic pure-exponential backoff, with no jitter. -/
theorem C6_amended {α : Type} (f : Nat → Except String α) (m bf : Nat)
    (hf : ∀ i, (f i).isOk = false) :
    (retry_with_backoff f m bf).sleeps =
      (List.range m).map (fun k => (bf : ℚ) ^ k) := by
  unfold retry_with_backoff
  rw [retryGo_allFail f bf hf m 0]
  simp only [RetryRun.sleeps]
  rw [List.range_eq_range']
  exact sleeps_flatMapTrace bf (List.range' 0 m)

/-- C6, witness: the amended theorem at the always-raising extractor with
the source's defaults. -/
theorem C6_witness :
    (∀ i, (alwaysRaise i).isOk = false) ∧
    (retry_with_backoff alwaysRaise 3 2).sleeps =
      (List.range 3).map (fun k => (2 : ℚ) ^ k) :=
  ⟨fun _ => rfl, C6_amended alwaysRaise 3 2 (fun _ => rfl)⟩

/-- C7, counterexample: on a batch of two distinct URLs, two scrape calls
are made but only one browser session is opened — the single driver
created before the loop is reused across different URLs — so the claim
that every session is scoped to exactly one extraction call is false. -/
theorem C7_counterexample :
    (process_spotify_data twoUrlStore 0 "URL" spotifyEnvOk).calls = 2 ∧
    (process_spotify_data twoUrlStore 0 "URL" spotifyEnvOk).opened = 1 ∧
    (process_spotify_data twoUrlStore 0 "URL" spotifyEnvOk).opened ≠
      (process_spotify_data twoUrlStore 0 "URL" spotifyEnvOk).calls := by
  refine ⟨by decide, by decide, by decide⟩

/-- C7, amended: `process_spotify_data` opens at most one browser session
per BATCH — exactly one when `setup_selenium` succeeds, none when it
raises — reuses it for every row's extraction, and always closes exactly
the sessions it opened (the `finally` block quits the driver when and only
when one was created), so no session leaks on any path. -/
theorem C7_amended (σ : Store) (r : Nat) (scol : String) (env : SpotifyEnv) :
    (process_spotify_data σ r scol env).opened =
      (process_spotify_data σ r scol env).closed ∧
    (process_spotify_data σ r scol env).opened ≤ 1 ∧
    (env.setup = Except.ok () → (process_spotify_data σ r scol env).opened = 1) ∧
    ((env.setup).isOk = false → (process_spotify_data σ r scol env).opened = 0) := by
  unfold process_spotify_data
  cases h : env.setup with
  | ok u => simp [h, Except.isOk, Except.toBool]
  | error e => simp [h, Except.isOk, Except.toBool]

/-- C7, witness: the amended theorem on a concrete two-URL batch with a
successful setup. -/
theorem C7_witness :
    spotifyEnvOk.setup = Except.ok () ∧
    (process_spotify_data twoUrlStore 0 "URL" spotifyEnvOk).opened = 1 :=
  ⟨rfl, (C7_amended twoUrlStore 0 "URL" spotifyEnvOk).2.2.1 rfl⟩

/-- Whether a retry-trace event is an extractor call. -/
def REvent.isCall : REvent → Bool
  | REvent.call _ => true
  | _ => false

/-- The claim that every extractor call in a trace is immediately preceded
by a sleep of the fixed duration `d` — in particular the trace cannot
begin with a call. -/
def sleepBeforeEveryCall (tr : List REvent) (d : ℚ) : Prop :=
  ∀ i : Nat, i < tr.length → (tr.getD i (REvent.sleep 0)).isCall = true →
    0 < i ∧ tr.getD (i - 1) (REvent.sleep 0) = REvent.sleep d

/-- C8, counterexample: with an extractor that raises on every call and
the source's defaults, the very first trace event is the extractor call
itself — no sleep of any duration precedes the first attempt — so the
claim that a fixed rate-limiting sleep occurs before every attempt,
including the first, is false. -/
theorem C8_counterexample :
    ¬ ∃ d : ℚ, sleepBeforeEveryCall (retry_with_backoff alwaysRaise).trace d := by
  rintro ⟨d, h⟩
  have h0 := h 0 (by decide) (by decide)
  exact Nat.lt_irrefl 0 h0.1

/-- C8, amended: `retry_with_backoff` performs no sleep before any
attempt: whenever the attempt budget is positive the first event of its
trace is the first extractor call, and the only sleeps it performs are the
backoff delays after failed attempts. -/
theorem C8_amended {α : Type} (f : Nat → Except String α) (m bf : Nat)
    (hm : 0 < m) :
    (retry_with_backoff f m bf).trace.head? = some (REvent.call 0) := by
  unfold retry_with_backoff
  cases m with
  | zero => exact absurd hm (Nat.lt_irrefl 0)
  | succ n => cases hf0 : f 0 <;> simp [retryGo, hf0]

/-- C8, witness: the amended theorem at the always-raising extractor with
the source's default budget of 3. -/
theorem C8_witness :
    0 < 3 ∧ (retry_with_backoff alwaysRaise 3 2).trace.head? =
      some (REvent.call 0) :=
  ⟨by decide, C8_amended alwaysRaise 3 2 (by decide)⟩

/-- C9: `scrape_playcount` catches every exception of its body and
returns the (non-negative, `Nat`-valued) count 0 on that path; a text with
no digits also yields 0; and a genuinely observed count of zero yields
the same 0 — so the caller cannot distinguish failure, not-found and a
true zero count. -/
theorem C9_theorem :
    (∀ e : String, scrape_playcount (PageOutcome.raiseExc e) = 0) ∧
    (∀ t : List Char, count_text t = [] →
      scrape_playcount (PageOutcome.text t) = 0) ∧
    scrape_playcount (PageOutcome.text "0 plays".data) = 0 := by
  refine ⟨fun e => rfl, fun t h => ?_, by decide⟩
  simp [scrape_playcount, scrape_playcount_body, h]

/-- C9, witness: the error path and a concrete no-digits text both
evaluate to 0. -/
theorem C9_witness :
    count_text "not found".data = [] ∧
    scrape_playcount (PageOutcome.text "not found".data) = 0 :=
  ⟨by decide, C9_theorem.2.1 "not found".data (by decide)⟩

